import Mathlib

/-!
Verification of the CRT-Client-app webhook bridge (Netlify functions).

Shallow embedding of the server-side pipeline:
* `netlify/functions/error-recovery.js` — retryWithBackoff, isTransientError
* `netlify/functions/message-processor.js` — processMetaMessage, processAttachment,
  formatVoiceflowResponse
* `netlify/functions/message-queue.js` — getPendingMessages, markMessageAsProcessing,
  processQueuedMessage, processPendingMessages
* `netlify/functions/session-manager.js` — updateSessionContext
* `netlify/functions/webhook-security.js` — verifySignatureSHA1/SHA256, validateWebhook
* `netlify/functions/meta-webhook-verification.js` — verification handler
* `netlify/functions/meta-webhook-handler.js` — event-ingestion handler

JavaScript conventions used throughout the embedding:
* `Option String` models a possibly-absent (`undefined`/`null`) string field;
  string truthiness (`if (s)`) is `jsTruthy` (absent or empty is falsy).
* I/O and library calls are shallow-embedded by passing their results as explicit
  arguments (for example the outcome of a database insert, or the HMAC primitive).
* A thrown exception is modelled with `Option`/an explicit outcome type.
-/


/-- Truthiness of a possibly-absent JavaScript string: `undefined`, `null` and the
empty string are falsy, every other string is truthy. -/
def jsTruthy : Option String → Bool
  | some s => s ≠ ""
  | none => false

/-- JavaScript `a || b` on possibly-absent strings: yields `a` when `a` is truthy,
otherwise `b`. -/
def jsOrOpt (a b : Option String) : Option String :=
  if jsTruthy a then a else b

/-- JavaScript `a || b` collapsed to a plain string (an absent result is conflated
with the empty string; both are falsy and are only consumed by truthiness checks
downstream). -/
def jsOrStr (a b : Option String) : String :=
  if jsTruthy a then a.getD "" else b.getD ""

/-- Interpolation of a possibly-absent string into a JS template literal:
an absent value prints as the text "undefined". -/
def jsShowOpt (o : Option String) : String := o.getD "undefined"

/-- Does the character list `n` occur contiguously inside `h`? -/
def listContainsSub (h n : List Char) : Bool :=
  match h with
  | [] => n.isEmpty
  | _ :: t => n.isPrefixOf h || listContainsSub t n

/-- JavaScript `hay.includes(needle)` for strings. -/
def strContains (hay needle : String) : Bool :=
  listContainsSub hay.data needle.data

/-- JavaScript `o?.includes(needle)` used in boolean position: an absent receiver
yields a falsy result. -/
def optContains (o : Option String) (needle : String) : Bool :=
  match o with
  | some m => strContains m needle
  | none => false

/-- Splits a character list at every occurrence of `c` (the semantics of
JavaScript `String.prototype.split` with a one-character separator). -/
def splitListOn (c : Char) : List Char → List (List Char)
  | [] => [[]]
  | x :: t =>
    let rest := splitListOn c t
    if x = c then [] :: rest
    else
      match rest with
      | [] => [[x]]
      | r :: rs => (x :: r) :: rs

/-- JavaScript `s.split(sep)` for a one-character separator string. -/
def strSplitOnChar (c : Char) (s : String) : List String :=
  (splitListOn c s.data).map (fun l => String.mk l)

/-- The error shape consumed by `error-recovery.js`: a message, an error code and
the HTTP status of an attached response (`error.response?.status`), each possibly
absent. -/
structure JsError where
  message : Option String
  code : Option String
  status : Option Nat
deriving DecidableEq

/-- JavaScript `error.response?.status >= n`: false when the status is absent
(`undefined >= n` is false). -/
def statusAtLeast (e : JsError) (n : Nat) : Bool :=
  match e.status with
  | some s => n ≤ s
  | none => false

/-- JavaScript `error.response?.status < n`: false when the status is absent. -/
def statusBelow (e : JsError) (n : Nat) : Bool :=
  match e.status with
  | some s => s < n
  | none => false

/-- Embeds `isTransientError` of `netlify/functions/error-recovery.js`
(lines 38–58): the cascade of message / code / status tests deciding whether an
error is retried. -/
def isTransientError (e : JsError) : Bool :=
  if optContains e.message "ECONNRESET" || optContains e.message "ETIMEDOUT" ||
      optContains e.message "ENOTFOUND" || optContains e.message "network" ||
      e.code == some "ECONNABORTED" then
    true
  else if e.status == some 429 || e.status == some 503 || e.status == some 504 then
    true
  else if statusAtLeast e 500 && statusBelow e 600 then
    true
  else if optContains e.message "Database connection" || optContains e.message "not available" then
    true
  else
    false

/-- The transient classification exactly as the specification words it (claim C7):
listed network failures, HTTP 429/503/504 or any 5xx, and the two database
message fragments; used to compare against the code's `isTransientError`. -/
def TransientPerSpec (e : JsError) : Prop :=
  (optContains e.message "ECONNRESET" = true ∨ optContains e.message "ETIMEDOUT" = true ∨
    optContains e.message "ENOTFOUND" = true ∨ e.code = some "ECONNABORTED" ∨
    optContains e.message "network" = true) ∨
  (e.status = some 429 ∨ e.status = some 503 ∨ e.status = some 504 ∨
    (∃ s, e.status = some s ∧ 500 ≤ s ∧ s < 600)) ∨
  (optContains e.message "Database connection" = true ∨
    optContains e.message "not available" = true)

/-- Options record of `retryWithBackoff` (`error-recovery.js` lines 3–11) with the
source's default values.  `onRetry` is a pure side effect and is not modelled. -/
structure RetryOptions where
  maxRetries : Nat := 3
  initialDelay : ℚ := 500
  maxDelay : ℚ := 10000
  backoffFactor : ℚ := 2
  shouldRetry : JsError → Nat → Bool := fun _ _ => true

/-- The options object built by `retryWithBackoff` when the caller passes `{}`. -/
def defaultRetryOptions : RetryOptions := {}

/-- Jitter factor `0.8 + Math.random() * 0.4` at a given attempt; `rand n` is the
value drawn by `Math.random()` before the n-th retry. -/
def jitterFactor (rand : Nat → ℚ) (attempt : Nat) : ℚ :=
  0.8 + rand attempt * 0.4

/-- Sleep computed before attempt number `attempt ≥ 1`
(`error-recovery.js` lines 17–20):
`min(maxDelay, initialDelay * backoffFactor^(attempt-1) * (0.8 + random * 0.4))`. -/
def retryDelay (o : RetryOptions) (rand : Nat → ℚ) (attempt : Nat) : ℚ :=
  min o.maxDelay (o.initialDelay * o.backoffFactor ^ (attempt - 1) * jitterFactor rand attempt)

/-- Observable trace of one `retryWithBackoff` run: the final result, the list of
sleeps performed (in order), and how many times the wrapped function was called. -/
structure RetryRun (α : Type) where
  result : Except JsError α
  delays : List ℚ
  calls : Nat

/-- One step of the `for (attempt = 0; attempt <= maxRetries; attempt++)` loop of
`retryWithBackoff` (lines 14–33).  `fn attempt` is the outcome of the wrapped
function on that attempt; `gas` bounds the remaining iterations (the caller
passes `maxRetries + 1`, which the loop never exhausts). -/
def retryGo (o : RetryOptions) (rand : Nat → ℚ) (fn : Nat → Except JsError α) :
    Nat → Nat → RetryRun α
  | _, 0 => ⟨Except.error ⟨none, none, none⟩, [], 0⟩
  | attempt, gas + 1 =>
    let ds : List ℚ := if attempt = 0 then [] else [retryDelay o rand attempt]
    match fn attempt with
    | Except.ok a => ⟨Except.ok a, ds, 1⟩
    | Except.error e =>
      if o.maxRetries ≤ attempt || !o.shouldRetry e attempt then ⟨Except.error e, ds, 1⟩
      else
        let rest := retryGo o rand fn (attempt + 1) gas
        ⟨rest.result, ds ++ rest.delays, rest.calls + 1⟩

/-- Embeds `retryWithBackoff` of `error-recovery.js` (lines 3–36). -/
def retryWithBackoff (o : RetryOptions) (rand : Nat → ℚ) (fn : Nat → Except JsError α) :
    RetryRun α :=
  retryGo o rand fn 0 (o.maxRetries + 1)

/-- A row of the `message_queue` table with the columns the queue logic consults. -/
structure QueueRow where
  id : Nat
  status : String
  retry_count : Nat
  created_at : Nat
deriving DecidableEq

/-- Ordering used by `.order('created_at', { ascending: true })`. -/
def createdAtLe (a b : QueueRow) : Prop := a.created_at ≤ b.created_at

instance : DecidableRel createdAtLe :=
  fun a b => inferInstanceAs (Decidable (a.created_at ≤ b.created_at))

instance : IsTotal QueueRow createdAtLe :=
  ⟨fun a b => Nat.le_total a.created_at b.created_at⟩

instance : IsTrans QueueRow createdAtLe :=
  ⟨fun _ _ _ hab hbc => Nat.le_trans hab hbc⟩

/-- Embeds `getPendingMessages` of `netlify/functions/message-queue.js`
(lines 115–131): the Supabase query
`.in('status', ['pending','failed']).lt('retry_count', 3)
.order('created_at', { ascending: true }).limit(limit)` over a table of rows. -/
def getPendingMessages (table : List QueueRow) (limit : Nat) : List QueueRow :=
  ((table.filter
      (fun r => (r.status == "pending" || r.status == "failed") && decide (r.retry_count < 3))
    ).insertionSort createdAtLe).take limit

/-- Default `limit` of `getPendingMessages`. -/
def getPendingMessagesDefaultLimit : Nat := 10

/-- Default `batchSize` of `processPendingMessages`; the drain endpoint
(`process-message-queue.js`) also defaults the per-call override to 5. -/
def drainBatchSizeDefault : Nat := 5

/-- The set of rows one drain invocation selects: `processPendingMessages`
(lines 260–272) calls `getPendingMessages(batchSize)`. -/
def drainSelection (table : List QueueRow) (batchSize : Nat) : List QueueRow :=
  getPendingMessages table batchSize

/-- Embeds `markMessageAsProcessing` (`message-queue.js` lines 139–158): the claim
update setting `status = 'processing'` and `retry_count = retry_count + 1`. -/
def markMessageAsProcessing (r : QueueRow) : QueueRow :=
  { r with status := "processing", retry_count := r.retry_count + 1 }

/-- Outcome of the caller-supplied `processorFunction` inside
`processQueuedMessage`. -/
inductive ProcessorOutcome where
  | ok
  | err (e : JsError)

/-- Embeds the queue-status effect of `processQueuedMessage`
(`message-queue.js` lines 166–248): the row is claimed (status `processing`,
retry_count incremented), re-read, and then
* on success the terminal stage marks it `completed`;
* on a processing error, if the error is transient and the re-read
  `retry_count < 3` the row is set back to `pending`, otherwise it is marked
  `failed`. -/
def processQueuedMessage (r : QueueRow) (outcome : ProcessorOutcome) : QueueRow :=
  let claimed := markMessageAsProcessing r
  match outcome with
  | ProcessorOutcome.ok => { claimed with status := "completed" }
  | ProcessorOutcome.err e =>
    if isTransientError e && decide (claimed.retry_count < 3) then
      { claimed with status := "pending" }
    else
      { claimed with status := "failed" }

/-- One entry of a session's `conversationHistory`
(`session-manager.js` `updateSessionContext`). -/
structure HistoryEntry where
  role : String
  content : String
  timestamp : Nat
deriving DecidableEq

/-- The session `context` map restricted to its reserved key: `conversationHistory`
is `none` when the stored context has no such key yet. -/
structure SessionContext where
  conversationHistory : Option (List HistoryEntry)
deriving DecidableEq

/-- The `contextUpdates` object accepted by `updateSessionContext`.  Besides the
two message keys, a caller may (like any other root key of the object) pass a
`conversationHistory` key of its own, which the final object spread
`{...currentContext, ...contextUpdates, lastUpdated}` copies over verbatim. -/
structure ContextUpdates where
  lastUserMessage : Option String
  lastAssistantMessage : Option String
  conversationHistory : Option (List HistoryEntry)
deriving DecidableEq

/-- History after the two conditional appends of `updateSessionContext`
(`session-manager.js` lines 71–86) but before truncation: a truthy
`lastUserMessage` / `lastAssistantMessage` each appends one timestamped entry. -/
def appendedHistory (ctx : SessionContext) (u : ContextUpdates) (now : Nat) :
    List HistoryEntry :=
  let h0 := ctx.conversationHistory.getD []
  let h1 :=
    if jsTruthy u.lastUserMessage then h0 ++ [⟨"user", u.lastUserMessage.getD "", now⟩] else h0
  if jsTruthy u.lastAssistantMessage then h1 ++ [⟨"assistant", u.lastAssistantMessage.getD "", now⟩]
  else h1

/-- Embeds `updateSessionContext` of `netlify/functions/session-manager.js`
(lines 58–104), restricted to the context value it writes back: append the
message entries, truncate with `slice(-50)` when the history exceeds 50, then
build `{...currentContext, ...contextUpdates, ...}` — so an explicit
`conversationHistory` key in the updates replaces the truncated list. -/
def updateSessionContext (ctx : SessionContext) (u : ContextUpdates) (now : Nat) :
    SessionContext :=
  let h2 := appendedHistory ctx u now
  let h3 := if 50 < h2.length then h2.drop (h2.length - 50) else h2
  { conversationHistory := some (u.conversationHistory.getD h3) }

/-- A stream of user-message context updates applied in order to a session that
starts with an empty history (the claim C5 scenario). -/
def userMessageStream (msgs : List String) : SessionContext :=
  msgs.foldl (fun c m => updateSessionContext c ⟨some m, none, none⟩ 0) ⟨some []⟩

/-- The history entries such a stream appends, in arrival order. -/
def streamEntries (msgs : List String) : List HistoryEntry :=
  msgs.map (fun m => ⟨"user", m, 0⟩)

/-- Case-sensitive lookup in a JS object embedded as an association list
(first binding wins), as used for `headers[key]` and query parameters. -/
def objGet (kvs : List (String × String)) (key : String) : Option String :=
  (kvs.find? (fun kv => kv.fst == key)).map (fun kv => kv.snd)

/-- Shared body of `verifySignatureSHA1` / `verifySignatureSHA256`
(`webhook-security.js` lines 5–35), parameterized by the expected algorithm tag
and by the hex HMAC digest primitive (`crypto.createHmac(algo, secret)` over the
body).  `timingSafeEqual` throws on buffers of different length and the catch
returns false, so it behaves as plain string equality here. -/
def verifySignatureWith (algo : String) (hmacHex : String → String → String)
    (signature body appSecret : String) : Bool :=
  if signature == "" || body == "" || appSecret == "" then false
  else
    let parts := strSplitOnChar '=' signature
    if parts.length != 2 || parts.getD 0 "" != algo then false
    else parts.getD 1 "" == hmacHex appSecret body

/-- Embeds `verifySignatureSHA1` of `webhook-security.js` (lines 5–19). -/
def verifySignatureSHA1 (hmac1 : String → String → String)
    (signature body appSecret : String) : Bool :=
  verifySignatureWith "sha1" hmac1 signature body appSecret

/-- Embeds `verifySignatureSHA256` of `webhook-security.js` (lines 21–35). -/
def verifySignatureSHA256 (hmac256 : String → String → String)
    (signature body appSecret : String) : Bool :=
  verifySignatureWith "sha256" hmac256 signature body appSecret

/-- The record returned by `validateWebhook`.  Early returns carry no `method`
key, embedded as the empty string. -/
structure ValidationResult where
  valid : Bool
  method : String
  message : String
deriving DecidableEq

/-- The SHA-1 header as `validateWebhook` reads it:
`headers['x-hub-signature'] || headers['X-Hub-Signature']`. -/
def sha1HeaderOf (hs : List (String × String)) : Option String :=
  jsOrOpt (objGet hs "x-hub-signature") (objGet hs "X-Hub-Signature")

/-- The SHA-256 header as `validateWebhook` reads it:
`headers['x-hub-signature-256'] || headers['X-Hub-Signature-256']`. -/
def sha256HeaderOf (hs : List (String × String)) : Option String :=
  jsOrOpt (objGet hs "x-hub-signature-256") (objGet hs "X-Hub-Signature-256")

/-- Embeds `validateWebhook` of `netlify/functions/webhook-security.js`
(lines 37–61), parameterized by the two HMAC hex-digest primitives.  The SHA-256
header is tried first when present; whenever that did not validate
(`if (!isValid && sha1Signature)`) the SHA-1 header is tried as well. -/
def validateWebhook (hmac1 hmac256 : String → String → String)
    (headers : Option (List (String × String))) (body appSecret : String) :
    ValidationResult :=
  match headers with
  | none => ⟨false, "", "Missing required validation parameters"⟩
  | some hs =>
    if body == "" || appSecret == "" then ⟨false, "", "Missing required validation parameters"⟩
    else
      let sha1Signature := sha1HeaderOf hs
      let sha256Signature := sha256HeaderOf hs
      if !jsTruthy sha1Signature && !jsTruthy sha256Signature then
        ⟨false, "", "No signature headers found"⟩
      else
        let step256 : Bool × String :=
          if jsTruthy sha256Signature then
            (verifySignatureSHA256 hmac256 (sha256Signature.getD "") body appSecret, "SHA-256")
          else (false, "")
        let stepFinal : Bool × String :=
          if !step256.fst && jsTruthy sha1Signature then
            (verifySignatureSHA1 hmac1 (sha1Signature.getD "") body appSecret, "SHA-1")
          else step256
        if stepFinal.fst then
          ⟨true, stepFinal.snd,
            "Successfully validated webhook signature using " ++ stepFinal.snd⟩
        else
          ⟨false, if stepFinal.snd == "" then "None" else stepFinal.snd,
            "Invalid webhook signature" ++
              (if stepFinal.snd != "" then " (" ++ stepFinal.snd ++ ")" else "")⟩

/-- A stand-in HMAC-SHA1 hex primitive for concrete evaluations of the dispatch
logic (the claims under test are about header dispatch, not about the hash). -/
def hmac1Stub : String → String → String := fun _ _ => "aa11"

/-- A stand-in HMAC-SHA256 hex primitive for concrete evaluations. -/
def hmac256Stub : String → String → String := fun _ _ => "bb22"

/-- A header object carrying both signature headers, where the SHA-1 value is the
one `hmac1Stub` would produce and the SHA-256 value is wrong. -/
def bothHeadersSha1Valid : List (String × String) :=
  [("x-hub-signature", "sha1=aa11"), ("x-hub-signature-256", "sha256=ffff")]

/-- A row of the `webhook_configs` table with the columns the verification
handler touches. -/
structure WebhookConfigRow where
  user_id : String
  platform : String
  verification_token : String
  is_active : Bool
deriving DecidableEq

/-- State of the data service as seen by one handler invocation: the Supabase
client failed to initialize, the query returned an error, or the query ran over
the given table. -/
inductive DbState where
  | unavailable
  | queryError
  | table (rows : List WebhookConfigRow)
deriving DecidableEq

/-- An HTTP response restricted to the fields the claims consult: status code,
whether `Content-Type: text/plain` was set, and the body (absent when the
challenge parameter itself was absent). -/
structure HttpResponse where
  statusCode : Nat
  contentTypeTextPlain : Bool
  body : Option String
deriving DecidableEq

/-- A Netlify event as consumed by the verification handler. -/
structure VerificationEvent where
  httpMethod : String
  path : String
  queryStringParameters : Option (List (String × String))
deriving DecidableEq

/-- Hard-coded verification tokens accepted before any database check
(`meta-webhook-verification.js` lines 295–297). -/
def knownTokens : List String := ["14abae006d729dbc83ca136af12bbbe1d9480eff"]

/-- Path parsing of the verification handler (lines 281–288): on
`/api/webhooks/{userId}/{platform}/{timestamp}` the third and fourth segments
are extracted; otherwise `userId` stays null and `platform` stays `'all'`. -/
def extractUserPlatform (path : String) : Option String × String :=
  let segs := strSplitOnChar '/' path
  if 5 ≤ segs.length ∧ segs.getD 2 "" == "webhooks" then
    (some (segs.getD 3 ""), segs.getD 4 "")
  else (none, "all")

/-- The `webhook_configs` query built in lines 341–351: filter on
`verification_token`, then on `user_id` when a truthy userId was extracted, then
on `platform` when it is truthy and not `'all'`.  Note that `is_active` is never
filtered on. -/
def matchingConfigs (rows : List WebhookConfigRow) (token : String)
    (userId : Option String) (platform : String) : List WebhookConfigRow :=
  let q1 := rows.filter (fun r => r.verification_token == token)
  let q2 := if jsTruthy userId then q1.filter (fun r => r.user_id == userId.getD "") else q1
  if platform != "" && platform != "all" then q2.filter (fun r => r.platform == platform) else q2

/-- The `hub.mode` query parameter of a verification event. -/
def eventMode (event : VerificationEvent) : Option String :=
  objGet (event.queryStringParameters.getD []) "hub.mode"

/-- The `hub.verify_token` query parameter of a verification event. -/
def eventToken (event : VerificationEvent) : Option String :=
  objGet (event.queryStringParameters.getD []) "hub.verify_token"

/-- The `hub.challenge` query parameter of a verification event. -/
def eventChallenge (event : VerificationEvent) : Option String :=
  objGet (event.queryStringParameters.getD []) "hub.challenge"

/-- Embeds the handler of `netlify/functions/meta-webhook-verification.js`
(lines 214–395): CORS preflight, method check, mode and token checks, the
hard-coded known-token shortcut, the fallback acceptance when the database
client is unavailable (any token longer than 10 characters or equal to
`'test_token'`), and finally the `webhook_configs` lookup. -/
def metaWebhookVerificationHandler (event : VerificationEvent) (db : DbState) :
    HttpResponse :=
  if event.httpMethod == "OPTIONS" then ⟨204, false, none⟩
  else if event.httpMethod != "GET" then
    ⟨405, false, some "Method not allowed. Please use GET for webhook verification."⟩
  else if eventMode event != some "subscribe" then
    ⟨400, false, some "Invalid hub.mode parameter. Expected subscribe."⟩
  else if !jsTruthy (eventToken event) then
    ⟨400, false, some "Missing hub.verify_token parameter."⟩
  else
    let token := (eventToken event).getD ""
    let up := extractUserPlatform event.path
    if knownTokens.contains token then ⟨200, true, eventChallenge event⟩
    else
      match db with
      | DbState.unavailable =>
        if decide (10 < token.length) || token == "test_token" then
          ⟨200, true, eventChallenge event⟩
        else ⟨401, false, some "Invalid verification token and database connection unavailable."⟩
      | DbState.queryError => ⟨500, false, some "Error verifying webhook token."⟩
      | DbState.table rows =>
        if 0 < (matchingConfigs rows token up.fst up.snd).length then
          ⟨200, true, eventChallenge event⟩
        else ⟨401, false, some "Invalid verification token."⟩

/-- The acceptance condition the code actually implements for the 200 path of the
verification handler (the spec-facing side of the amended claim C2). -/
def verificationAccepts (event : VerificationEvent) (db : DbState) : Bool :=
  (eventMode event == some "subscribe") && jsTruthy (eventToken event) &&
    (let token := (eventToken event).getD ""
     let up := extractUserPlatform event.path
     knownTokens.contains token ||
       (match db with
        | DbState.unavailable => decide (10 < token.length) || token == "test_token"
        | DbState.queryError => false
        | DbState.table rows => !(matchingConfigs rows token up.fst up.snd).isEmpty))

/-- A well-formed verification request carrying the hard-coded known token. -/
def knownTokenEvent : VerificationEvent :=
  ⟨"GET", "/api/webhooks/T1/facebook/1700000000",
    some [("hub.mode", "subscribe"),
          ("hub.verify_token", "14abae006d729dbc83ca136af12bbbe1d9480eff"),
          ("hub.challenge", "C123")]⟩

/-- An attachment of a Meta webhook message, with its payload flattened:
`payload.url`, `payload.coordinates` and `payload.title` each possibly absent. -/
structure MetaAttachment where
  type : String
  payloadUrl : Option String
  payloadCoordinates : Option (String × String)
  payloadTitle : Option String
deriving DecidableEq

/-- The object built by `processAttachment`.  `description` is assigned in every
switch branch, hence a plain string. -/
structure ProcessedAttachment where
  type : String
  url : Option String
  coordinates : Option (String × String)
  description : String
deriving DecidableEq

/-- Embeds `processAttachment` of `netlify/functions/message-processor.js`
(lines 184–220).  In the `location` branch the source destructures
`attachment.payload.coordinates`; when the coordinates are absent that
destructuring throws, modelled as `none`. -/
def processAttachment (attachment : MetaAttachment) : Option ProcessedAttachment :=
  match attachment.type with
  | "image" =>
    some ⟨"image", attachment.payloadUrl, none,
      "[Image: " ++ jsShowOpt attachment.payloadUrl ++ "]"⟩
  | "audio" => some ⟨"audio", attachment.payloadUrl, none, "[Audio message]"⟩
  | "video" => some ⟨"video", attachment.payloadUrl, none, "[Video message]"⟩
  | "file" =>
    some ⟨"file", attachment.payloadUrl, none,
      "[File attachment: " ++ jsShowOpt attachment.payloadUrl ++ "]"⟩
  | "location" =>
    match attachment.payloadCoordinates with
    | none => none
    | some c =>
      some ⟨"location", none, some c, "[Location: " ++ c.fst ++ "," ++ c.snd ++ "]"⟩
  | "fallback" =>
    some ⟨"fallback", none, none,
      "[Fallback: " ++ jsOrStr attachment.payloadTitle (some "Unsupported content") ++ "]"⟩
  | t => some ⟨t, none, none, "[Unsupported attachment type: " ++ t ++ "]"⟩

/-- The `quick_reply` field of a Meta message. -/
structure QuickReplyField where
  payload : String
deriving DecidableEq

/-- The `postback` field of a Meta message: payload and title each possibly
absent. -/
structure PostbackField where
  payload : Option String
  title : Option String
deriving DecidableEq

/-- A Meta webhook message as consumed by `processMetaMessage`.  An absent
`attachments` array and an empty one behave identically and are both the empty
list. -/
structure MetaMessage where
  text : Option String
  attachments : List MetaAttachment
  quick_reply : Option QuickReplyField
  postback : Option PostbackField
  mid : Option String
deriving DecidableEq

/-- An entry of `processedContent.quickReplies`. -/
structure QuickReplyOut where
  title : String
  payload : String
deriving DecidableEq

/-- The normalized message built by `processMetaMessage`, with the `metadata`
object flattened into `metadataPlatform` / `metadataMessageId` /
`metadataPostbackTitle`. -/
structure ProcessedContent where
  text : String
  attachments : List ProcessedAttachment
  quickReplies : List QuickReplyOut
  type : String
  metadataPlatform : String
  metadataMessageId : Option String
  metadataPostbackTitle : Option String
deriving DecidableEq

/-- One iteration of the `message.attachments.forEach` loop of
`processMetaMessage` (lines 150–161): push the processed attachment, adopt its
description as `text` when `text` is still falsy, and adopt its type while the
running type is still `'text'`. -/
def attachmentStep (acc : ProcessedContent) (pa : ProcessedAttachment) : ProcessedContent :=
  let acc1 := { acc with attachments := acc.attachments ++ [pa] }
  let acc2 :=
    if acc1.text == "" && pa.description != "" then { acc1 with text := pa.description }
    else acc1
  if acc2.type == "text" then { acc2 with type := pa.type } else acc2

/-- The whole attachments loop; a throwing `processAttachment` aborts the whole
call. -/
def processAttachmentsFold (atts : List MetaAttachment) (acc : ProcessedContent) :
    Option ProcessedContent :=
  match atts with
  | [] => some acc
  | a :: rest =>
    match processAttachment a with
    | none => none
    | some pa => processAttachmentsFold rest (attachmentStep acc pa)

/-- The initial content of `processMetaMessage` after the `message.text` check
(lines 137–148). -/
def textStep (message : MetaMessage) : ProcessedContent :=
  let pc0 : ProcessedContent := ⟨"", [], [], "text", "", none, none⟩
  if jsTruthy message.text then { pc0 with text := message.text.getD "", type := "text" }
  else pc0

/-- The `message.quick_reply` block (lines 163–169): push a quick reply, set the
text to its payload and the type to quick_reply. -/
def quickReplyStep (pc : ProcessedContent) : Option QuickReplyField → ProcessedContent
  | some qr =>
    { pc with
      quickReplies := pc.quickReplies ++ [QuickReplyOut.mk "Quick Reply" qr.payload],
      text := qr.payload, type := "quick_reply" }
  | none => pc

/-- The `message.postback` block (lines 171–175): set the text to
`payload || title`, the type to postback, and stamp the title into metadata. -/
def postbackStep (pc : ProcessedContent) : Option PostbackField → ProcessedContent
  | some pb =>
    { pc with
      text := jsOrStr pb.payload pb.title, type := "postback",
      metadataPostbackTitle := pb.title }
  | none => pc

/-- The final text fallback (lines 177–179): a still-falsy text becomes the
unsupported-message marker. -/
def fallbackTextStep (platform : String) (pc : ProcessedContent) : ProcessedContent :=
  if pc.text == "" then { pc with text := "[Unsupported " ++ platform ++ " message type]" }
  else pc

/-- Embeds `processMetaMessage` of `netlify/functions/message-processor.js`
(lines 128–177): text, attachments, quick reply and postback are folded into the
normalized content in that order, with the unsupported-type fallback text and
the metadata stamps at the end. -/
def processMetaMessage (message : MetaMessage) (platform : String) :
    Option ProcessedContent :=
  match processAttachmentsFold message.attachments (textStep message) with
  | none => none
  | some pc2 =>
    let pc5 :=
      fallbackTextStep platform
        (postbackStep (quickReplyStep pc2 message.quick_reply) message.postback)
    some { pc5 with metadataPlatform := platform, metadataMessageId := message.mid }

/-- A button inside a Voiceflow `choice` record. -/
structure VFButton where
  name : String
  requestPayload : String
deriving DecidableEq

/-- One record of a Voiceflow response array, restricted to the fields
`formatVoiceflowResponse` reads.  `text none` models an absent payload or
message; `choice none` an absent buttons array; `visual none` an absent image. -/
inductive VFItem where
  | text (message : Option String)
  | choice (buttons : Option (List VFButton))
  | visual (image : Option String)
  | other
deriving DecidableEq

/-- An entry of the outgoing `quick_replies` array. -/
structure QuickReplyContent where
  content_type : String
  title : String
  payload : String
deriving DecidableEq

/-- The outgoing attachment object. -/
structure AttachmentOut where
  type : String
  payloadUrl : String
  isReusable : Bool
deriving DecidableEq

/-- The object built by `formatVoiceflowResponse`. -/
structure FormattedResponse where
  text : String
  quick_replies : List QuickReplyContent
  attachment : Option AttachmentOut
deriving DecidableEq

/-- The `buttons.forEach` loop of the `choice` branch: quick replies are appended
while fewer than 13 are present. -/
def addButtons (acc : FormattedResponse) (buttons : List VFButton) : FormattedResponse :=
  buttons.foldl
    (fun a b =>
      if a.quick_replies.length < 13 then
        { a with quick_replies := a.quick_replies ++ [⟨"text", b.name, b.requestPayload⟩] }
      else a)
    acc

/-- One iteration of the `voiceflowResponse.forEach` loop of
`formatVoiceflowResponse` (`message-processor.js` lines 290–311). -/
def formatStep (acc : FormattedResponse) (item : VFItem) : FormattedResponse :=
  match item with
  | VFItem.text msg =>
    if jsTruthy msg then
      { acc with
        text := if acc.text != "" then acc.text ++ "\n\n" ++ msg.getD "" else msg.getD "" }
    else acc
  | VFItem.choice buttons =>
    match buttons with
    | some bs => addButtons acc bs
    | none => acc
  | VFItem.visual image =>
    if jsTruthy image then { acc with attachment := some ⟨"image", image.getD "", true⟩ }
    else acc
  | VFItem.other => acc

/-- The collapsed response after the `forEach` loop, before the text fallbacks. -/
def collapsedResponse (items : List VFItem) : FormattedResponse :=
  items.foldl formatStep ⟨"", [], none⟩

/-- The apology text used both for a missing array and for an empty collapse. -/
def apologyText : String := "I'm sorry, I couldn't process your request at this time."

/-- Embeds `formatVoiceflowResponse` of `netlify/functions/message-processor.js`
(lines 284–322).  `none` models a null / undefined / non-array argument. -/
def formatVoiceflowResponse (voiceflowResponse : Option (List VFItem)) :
    FormattedResponse :=
  match voiceflowResponse with
  | none => ⟨apologyText, [], none⟩
  | some items =>
    let f := collapsedResponse items
    let f1 :=
      if f.text == "" && f.attachment.isSome then { f with text := "Here you go!" } else f
    if f1.text == "" then { f1 with text := apologyText } else f1

/-- One element of `entry.messaging` / `entry.changes` in an inbound webhook
payload, restricted to the fields the dispatch in the handler's event loop
reads. -/
structure RawMessagingEvent where
  field : Option String
  hasMessage : Bool
  isEcho : Bool
  hasPostback : Bool
deriving DecidableEq

/-- Whether the event loop of `meta-webhook-handler.js` (lines 147–175) enqueues
this event: Instagram `changes` with `field === 'messages'`, Facebook messages
that are not echoes, and Facebook postbacks. -/
def isQueueable (platform : String) (e : RawMessagingEvent) : Bool :=
  (platform == "instagram" && e.field == some "messages") ||
    (platform == "facebook" && e.hasMessage && !e.isEcho) ||
    (platform == "facebook" && e.hasPostback)

/-- The parsed JSON body of an inbound webhook POST: the `object` discriminator
and, per entry, its list of messaging events (`entry.messaging || entry.changes`;
`none` models a payload whose `entry` field is absent, making the `for ... of`
iteration throw). -/
structure ParsedBody where
  object : Option String
  entries : Option (List (List RawMessagingEvent))
deriving DecidableEq

/-- Outcome of one awaited JavaScript call: a value, or a thrown exception. -/
inductive JsOutcome (α : Type) where
  | ok (value : α)
  | threw (errorMessage : String)
deriving DecidableEq

/-- The enqueue loop over the queueable events: `outs i` is the outcome of the
i-th `queueMessage` call; the first throw aborts the loop (and is caught by the
handler's outer catch). -/
def runEnqueues (outs : Nat → JsOutcome Unit) (platform : String) :
    List RawMessagingEvent → Nat → JsOutcome Nat
  | [], n => JsOutcome.ok n
  | e :: rest, n =>
    if isQueueable platform e then
      match outs n with
      | JsOutcome.ok _ => runEnqueues outs platform rest (n + 1)
      | JsOutcome.threw m => JsOutcome.threw m
    else runEnqueues outs platform rest n

/-- A Netlify event as consumed by the webhook event handler. -/
structure HandlerEvent where
  httpMethod : String
  path : String
  headers : Option (List (String × String))
  body : String
deriving DecidableEq

/-- Path parsing of the event handler (`meta-webhook-handler.js` lines 100–108):
like the verification handler's, but both variables start as null. -/
def extractWebhookPath (path : String) : Option String × Option String :=
  let segs := strSplitOnChar '/' path
  if 5 ≤ segs.length ∧ segs.getD 2 "" == "webhooks" then
    (some (segs.getD 3 ""), some (segs.getD 4 ""))
  else (none, none)

/-- Embeds the exported handler of `meta-webhook-handler.js` (lines 51–196).
The GET branch delegates to the verification handler, whose response is passed
in as `getResponse`.  `parsedBody` is the result of `JSON.parse(event.body)`
(`none` when parsing threw); `enqueueOutcomes i` is the outcome of the i-th
`queueMessage` call and `drainOutcome` that of
`processPendingMessages(processMessage, 2)`.  Every exception thrown inside the
event-processing `try` block is answered with status 200 (the source comments:
always return 200 to Meta to avoid retries). -/
def metaWebhookHandler (hmac1 hmac256 : String → String → String)
    (appSecret : Option String) (event : HandlerEvent) (getResponse : HttpResponse)
    (parsedBody : Option ParsedBody) (enqueueOutcomes : Nat → JsOutcome Unit)
    (drainOutcome : JsOutcome Nat) : HttpResponse :=
  if event.httpMethod == "OPTIONS" then ⟨204, false, none⟩
  else if event.httpMethod == "GET" then getResponse
  else if event.httpMethod != "POST" then
    ⟨405, false, some "Method not allowed. Please use POST for webhook events."⟩
  else if jsTruthy appSecret &&
      !(validateWebhook hmac1 hmac256 event.headers event.body (appSecret.getD "")).valid then
    ⟨401, false, some "Invalid webhook signature"⟩
  else
    let up := extractWebhookPath event.path
    if !jsTruthy up.fst || !jsTruthy up.snd then
      ⟨400, false, some "Invalid webhook URL format. Expected /api/webhooks/userId/platform/timestamp"⟩
    else if up.snd != some "facebook" && up.snd != some "instagram" then
      ⟨400, false, some "Invalid platform. Expected facebook or instagram."⟩
    else
      match parsedBody with
      | none => ⟨400, false, some "Invalid request body. JSON parsing failed."⟩
      | some pb =>
        if pb.object != some "page" && pb.object != some "instagram" then
          ⟨200, false, some "ignored: Not a messaging webhook event"⟩
        else
          match pb.entries with
          | none => ⟨200, false, some "error: Error processing webhook"⟩
          | some entries =>
            match runEnqueues enqueueOutcomes (up.snd.getD "") entries.flatten 0 with
            | JsOutcome.threw _ => ⟨200, false, some "error: Error processing webhook"⟩
            | JsOutcome.ok queued =>
              match drainOutcome with
              | JsOutcome.threw _ => ⟨200, false, some "error: Error processing webhook"⟩
              | JsOutcome.ok _ =>
                ⟨200, false,
                  some ("success: Webhook events received and queued for processing (" ++
                    toString queued ++ ")")⟩

/-- An error whose message is the ETIMEDOUT network failure. -/
def timeoutError : JsError := ⟨some "ETIMEDOUT", none, none⟩

/-- A failed queue row that has never been retried. -/
def failedRow : QueueRow := ⟨1, "failed", 0, 0⟩

/-- A 51-entry history list, used as an explicit conversationHistory value inside
a context-update object. -/
def bigHistory : List HistoryEntry := List.replicate 51 ⟨"user", "x", 0⟩

/-- A POST webhook event whose SHA-256 signature is the one `hmac256Stub`
produces. -/
def postWebhookEvent : HandlerEvent :=
  ⟨"POST", "/api/webhooks/u1/facebook/1700000000",
    some [("x-hub-signature-256", "sha256=bb22")], "rawbody"⟩

/-- A Facebook text message event (not an echo). -/
def fbTextEvent : RawMessagingEvent := ⟨none, true, false, false⟩

/-- A message with no text and a single image attachment. -/
def imageOnlyMessage : MetaMessage :=
  ⟨none, [⟨"image", some "http://img.example/x.png", none, none⟩], none, none, some "m1"⟩

/-- The image attachment of `imageOnlyMessage`. -/
def imageAttachment : MetaAttachment := ⟨"image", some "http://img.example/x.png", none, none⟩

/-- A message carrying a postback with payload and title. -/
def postbackMessage : MetaMessage :=
  ⟨some "hi", [], none, some ⟨some "PB_PAYLOAD", some "PB Title"⟩, none⟩

/-- A message carrying a quick-reply tap. -/
def quickReplyMessage : MetaMessage := ⟨some "hi", [], some ⟨"QR_PAYLOAD"⟩, none, none⟩

/-- A message with nothing recoverable at all. -/
def bareMessage : MetaMessage := ⟨none, [], none, none, none⟩

/-- The successful result of `processMetaMessage`, with a dummy default. -/
def pcOf (m : MetaMessage) (platform : String) : ProcessedContent :=
  (processMetaMessage m platform).getD ⟨"", [], [], "", "", none, none⟩

/-! Theorems -/

theorem statusRange_iff (e : JsError) :
    (statusAtLeast e 500 && statusBelow e 600) = true ↔
      ∃ s, e.status = some s ∧ 500 ≤ s ∧ s < 600 := by
  cases h : e.status with
  | none => simp [statusAtLeast, statusBelow, h]
  | some s => simp [statusAtLeast, statusBelow, h]

/-- Claim C7: `isTransientError` classifies an error as transient exactly when it
matches one of the listed network failures (ECONNRESET, ETIMEDOUT, ENOTFOUND in
the message, code ECONNABORTED, or a message containing "network"), an HTTP
response status of 429, 503, 504 or any 5xx, or a message containing
"Database connection" or "not available"; every other error is permanent. -/
theorem C7_transient_classification (e : JsError) :
    isTransientError e = true ↔ TransientPerSpec e := by
  have hstat := statusRange_iff e
  unfold isTransientError TransientPerSpec
  split_ifs with h1 h2 h3 h4 <;>
    simp_all [Bool.or_eq_true, beq_iff_eq] <;> tauto

theorem retryGo_calls_le (o : RetryOptions) (rand : Nat → ℚ) (fn : Nat → Except JsError α) :
    ∀ gas attempt, (retryGo o rand fn attempt gas).calls ≤ gas := by
  intro gas
  induction gas with
  | zero => intro attempt; simp [retryGo]
  | succ g ih =>
    intro attempt
    unfold retryGo
    cases hfn : fn attempt with
    | ok a => simp
    | error e =>
      by_cases hstop : (o.maxRetries ≤ attempt || !o.shouldRetry e attempt) = true
      · simp [hstop]
      · simp only [hstop]
        simpa using ih (attempt + 1)

theorem retryGo_delays_shape (o : RetryOptions) (rand : Nat → ℚ)
    (fn : Nat → Except JsError α) :
    ∀ gas attempt, 1 ≤ attempt →
      ∃ m, (retryGo o rand fn attempt gas).delays =
        (List.range' attempt m).map (retryDelay o rand) := by
  intro gas
  induction gas with
  | zero => intro attempt _; exact ⟨0, by simp [retryGo]⟩
  | succ g ih =>
    intro attempt h1
    have hne : ¬ attempt = 0 := by omega
    unfold retryGo
    cases hfn : fn attempt with
    | ok a =>
      refine ⟨1, ?_⟩
      simp [hne, List.range']
    | error e =>
      by_cases hstop : (o.maxRetries ≤ attempt || !o.shouldRetry e attempt) = true
      · refine ⟨1, ?_⟩
        simp [hstop, hne, List.range']
      · obtain ⟨m, hm⟩ := ih (attempt + 1) (by omega)
        refine ⟨m + 1, ?_⟩
        simp [hstop, hne, hm, List.range'_succ]

theorem retryWithBackoff_delays (o : RetryOptions) (rand : Nat → ℚ)
    (fn : Nat → Except JsError α) :
    ∃ m, (retryWithBackoff o rand fn).delays =
      (List.range' 1 m).map (retryDelay o rand) := by
  unfold retryWithBackoff retryGo
  cases hfn : fn 0 with
  | ok a => exact ⟨0, by simp⟩
  | error e =>
    simp only
    split
    · exact ⟨0, by simp⟩
    · obtain ⟨m, hm⟩ := retryGo_delays_shape o rand fn o.maxRetries 1 (le_refl 1)
      exact ⟨m, by simp [hm]⟩

theorem retryWithBackoff_delay_at (o : RetryOptions) (rand : Nat → ℚ)
    (fn : Nat → Except JsError α) :
    ∀ i, ∀ h : i < (retryWithBackoff o rand fn).delays.length,
      (retryWithBackoff o rand fn).delays.get ⟨i, h⟩ = retryDelay o rand (i + 1) := by
  intro i h
  obtain ⟨m, hm⟩ := retryWithBackoff_delays o rand fn
  revert h
  rw [hm]
  intro h
  simp only [List.get_eq_getElem, List.getElem_map, List.getElem_range']
  congr 1
  omega

/-- Claim C6: a `retryWithBackoff` run with maxRetries r calls the wrapped
function at most r + 1 times, and the sleep before the n-th retry equals
`min(maxDelay, initialDelay * backoff^(n-1) * u)` for a jitter factor
u ∈ [0.8, 1.2]; the defaults are initialDelay 500 ms, backoff factor 2,
maxDelay 10 s, maxRetries 3. -/
theorem C6_retry_backoff_bounds (o : RetryOptions) (rand : Nat → ℚ)
    (fn : Nat → Except JsError α) (hrand : ∀ n, 0 ≤ rand n ∧ rand n < 1) :
    (retryWithBackoff o rand fn).calls ≤ o.maxRetries + 1 ∧
    (∀ n, 1 ≤ n →
      ∀ hlt : n - 1 < (retryWithBackoff o rand fn).delays.length,
        ∃ u, 0.8 ≤ u ∧ u ≤ 1.2 ∧
          (retryWithBackoff o rand fn).delays.get ⟨n - 1, hlt⟩ =
            min o.maxDelay (o.initialDelay * o.backoffFactor ^ (n - 1) * u)) ∧
    defaultRetryOptions.initialDelay = 500 ∧ defaultRetryOptions.backoffFactor = 2 ∧
    defaultRetryOptions.maxDelay = 10000 ∧ defaultRetryOptions.maxRetries = 3 := by
  refine ⟨retryGo_calls_le o rand fn (o.maxRetries + 1) 0, ?_, rfl, rfl, rfl, rfl⟩
  intro n hn hlt
  obtain ⟨m, hm⟩ := retryWithBackoff_delays o rand fn
  refine ⟨jitterFactor rand n, ?_, ?_, ?_⟩
  · have h0 := (hrand n).1
    have : (0:ℚ) ≤ rand n * 0.4 := by positivity
    unfold jitterFactor
    linarith
  · have h1 := (hrand n).2
    have : rand n * 0.4 < 0.4 := by nlinarith
    unfold jitterFactor
    linarith
  · have hget := retryWithBackoff_delay_at o rand fn (n - 1) hlt
    rw [hget]
    have hsub : n - 1 + 1 = n := by omega
    rw [hsub]
    rfl

/-- Concrete instantiation of claim C6 at the default options, zero jitter draws
and an immediately succeeding wrapped function. -/
theorem C6_retry_backoff_bounds_witness :
    (retryWithBackoff defaultRetryOptions (fun _ => 0) (fun _ => Except.ok (0 : Nat))).calls ≤
      defaultRetryOptions.maxRetries + 1 :=
  (C6_retry_backoff_bounds defaultRetryOptions (fun _ => 0) (fun _ => Except.ok (0 : Nat))
    (fun _ => ⟨le_refl 0, by norm_num⟩)).1

/-- Claim C4: after a transient processing failure, `processQueuedMessage` sets
the queue row back to pending only when the retry count it consults (the stored
value after the claim increment) is strictly below 3; with that count equal to 3
and a transient failure the final status is failed, not pending. -/
theorem C4_transient_retry_exhaustion (r : QueueRow) (e : JsError) :
    ((processQueuedMessage r (ProcessorOutcome.err e)).status = "pending" →
      (markMessageAsProcessing r).retry_count < 3) ∧
    ((markMessageAsProcessing r).retry_count = 3 → isTransientError e = true →
      (processQueuedMessage r (ProcessorOutcome.err e)).status = "failed") := by
  simp only [processQueuedMessage, markMessageAsProcessing]
  split_ifs with h
  · simp only [Bool.and_eq_true, decide_eq_true_eq] at h
    exact ⟨fun _ => h.2, fun h3 _ => absurd h3 (by omega)⟩
  · refine ⟨fun hp => ?_, fun _ _ => rfl⟩
    simp at hp

/-- Concrete instantiation of claim C4: a row whose stored retry count reaches 3
on the claim goes to failed under a transient failure, and a fresh row's
consulted count stays below 3. -/
theorem C4_transient_retry_exhaustion_witness :
    (processQueuedMessage ⟨7, "pending", 2, 0⟩ (ProcessorOutcome.err timeoutError)).status =
      "failed" ∧
    (markMessageAsProcessing ⟨9, "pending", 0, 0⟩).retry_count < 3 :=
  ⟨(C4_transient_retry_exhaustion ⟨7, "pending", 2, 0⟩ timeoutError).2 (by decide) (by decide),
   (C4_transient_retry_exhaustion ⟨9, "pending", 0, 0⟩ timeoutError).1 (by decide)⟩

/-- Claim C3 counterexample: a drain invocation (default batch size 5) over a
table holding one row with status failed and retry_count 0 selects that row —
the drainer does pick up failed rows, contradicting the claim that only pending
rows are selected. -/
theorem C3_claim_counterexample :
    failedRow ∈ drainSelection [failedRow] drainBatchSizeDefault ∧
    failedRow.status ≠ "pending" := by decide

/-- Claim C3 amended: a drain invocation selects only rows with status pending
or failed and retry_count < 3, ordered by created_at ascending and limited to
the batch size (default 5); failed rows with fewer than 3 retries are selected
alongside pending ones. -/
theorem C3_amended_drain_selection (table : List QueueRow) (batchSize : Nat) :
    (∀ r ∈ drainSelection table batchSize,
      (r.status = "pending" ∨ r.status = "failed") ∧ r.retry_count < 3) ∧
    (drainSelection table batchSize).Sorted createdAtLe ∧
    (drainSelection table batchSize).length ≤ batchSize := by
  unfold drainSelection getPendingMessages
  refine ⟨?_, ?_, ?_⟩
  · intro r hr
    have hr1 := List.mem_of_mem_take hr
    have hr2 := (List.perm_insertionSort createdAtLe _).mem_iff.mp hr1
    have h3 := List.of_mem_filter hr2
    simp only [Bool.and_eq_true, Bool.or_eq_true, beq_iff_eq, decide_eq_true_eq] at h3
    exact h3
  · exact (List.sorted_insertionSort createdAtLe _).sublist (List.take_sublist _ _)
  · exact List.length_take_le _ _

/-- Concrete instantiation of claim C3 (amended) on the one-failed-row table. -/
theorem C3_amended_drain_selection_witness :
    ((failedRow.status = "pending" ∨ failedRow.status = "failed") ∧ failedRow.retry_count < 3) ∧
    (drainSelection [failedRow] drainBatchSizeDefault).length ≤ drainBatchSizeDefault :=
  ⟨(C3_amended_drain_selection [failedRow] drainBatchSizeDefault).1 failedRow (by decide),
   (C3_amended_drain_selection [failedRow] drainBatchSizeDefault).2.2⟩

/-- Claim C5 counterexample: a single `updateSessionContext` call whose update
object itself carries a `conversationHistory` key of 51 entries leaves 51 entries
stored — the object spread `{...currentContext, ...contextUpdates}` copies the
caller's list over the truncated one, so the stored history does exceed 50 after
a write. -/
theorem C5_claim_counterexample :
    ((updateSessionContext ⟨some []⟩ ⟨none, none, some bigHistory⟩ 0).conversationHistory.getD
      []).length = 51 := by decide

set_option maxRecDepth 20000 in
/-- Claim C5 amended: for every update whose update object does not itself carry
a `conversationHistory` key, the stored history never exceeds 50 entries after
the write and equals the appended history with its oldest entries dropped
(FIFO); and a stream of 51 user-message appends into a fresh session leaves
exactly the most recent 50 entries. -/
theorem C5_amended_history_cap :
    (∀ ctx u now, u.conversationHistory = none →
      ((updateSessionContext ctx u now).conversationHistory.getD []).length ≤ 50 ∧
      (updateSessionContext ctx u now).conversationHistory.getD [] =
        (appendedHistory ctx u now).drop ((appendedHistory ctx u now).length - 50)) ∧
    (userMessageStream ((List.range 51).map (fun i => toString i))).conversationHistory =
      some ((streamEntries ((List.range 51).map (fun i => toString i))).drop 1) := by
  constructor
  · intro ctx u now hnone
    simp only [updateSessionContext, hnone, Option.getD_none, Option.getD_some]
    by_cases hlen : 50 < (appendedHistory ctx u now).length
    · rw [if_pos hlen]
      refine ⟨?_, rfl⟩
      rw [List.length_drop]
      omega
    · rw [if_neg hlen]
      have hz : (appendedHistory ctx u now).length - 50 = 0 := by omega
      rw [hz, List.drop_zero]
      exact ⟨by omega, rfl⟩
  · decide

/-- Concrete instantiation of claim C5 (amended): writing a user message into a
session whose stored history is already oversized truncates it back to at most
50 entries. -/
theorem C5_amended_history_cap_witness :
    ((updateSessionContext ⟨some bigHistory⟩ ⟨some "hello", none, none⟩ 5).conversationHistory.getD
      []).length ≤ 50 :=
  (C5_amended_history_cap.1 ⟨some bigHistory⟩ ⟨some "hello", none, none⟩ 5 rfl).1

/-- Claim C1 counterexample: a request carrying both signature headers, whose
SHA-256 header does not validate but whose SHA-1 header does, is accepted by
`validateWebhook` (method SHA-1) — the SHA-1 header is consulted as a fallback
even though the 256 header is present. -/
theorem C1_claim_counterexample :
    (validateWebhook hmac1Stub hmac256Stub (some bothHeadersSha1Valid) "rawbody" "secret").valid =
      true ∧
    verifySignatureSHA256 hmac256Stub
      ((sha256HeaderOf bothHeadersSha1Valid).getD "") "rawbody" "secret" = false ∧
    jsTruthy (sha256HeaderOf bothHeadersSha1Valid) = true ∧
    jsTruthy (sha1HeaderOf bothHeadersSha1Valid) = true := by decide

/-- Claim C1 amended: when a request carries both signature headers,
`validateWebhook` accepts it exactly when the SHA-256 signature validates or,
failing that, the SHA-1 signature validates — the SHA-1 header is consulted as a
fallback whenever SHA-256 validation does not succeed, not only when the 256
header is absent. -/
theorem C1_amended_signature_fallback (hmac1 hmac256 : String → String → String)
    (hs : List (String × String)) (body appSecret : String)
    (h256 : jsTruthy (sha256HeaderOf hs) = true) (h1 : jsTruthy (sha1HeaderOf hs) = true)
    (hbody : body ≠ "") (hsecret : appSecret ≠ "") :
    (validateWebhook hmac1 hmac256 (some hs) body appSecret).valid =
      (verifySignatureSHA256 hmac256 ((sha256HeaderOf hs).getD "") body appSecret ||
        verifySignatureSHA1 hmac1 ((sha1HeaderOf hs).getD "") body appSecret) := by
  simp only [validateWebhook, h256, h1, Bool.not_true, Bool.and_self, Bool.false_and,
    Bool.and_false, if_true, if_false]
  have hb : (body == "") = false := by simpa using hbody
  have hsec : (appSecret == "") = false := by simpa using hsecret
  rw [hb, hsec]
  simp only [Bool.false_or, if_false, h256, h1, if_true]
  cases hv : verifySignatureSHA256 hmac256 ((sha256HeaderOf hs).getD "") body appSecret
  · cases hv1 : verifySignatureSHA1 hmac1 ((sha1HeaderOf hs).getD "") body appSecret <;>
      simp [hv, hv1]
  · simp [hv]

/-- Concrete instantiation of claim C1 (amended) on the two-header request whose
SHA-1 signature validates. -/
theorem C1_amended_signature_fallback_witness :
    (validateWebhook hmac1Stub hmac256Stub (some bothHeadersSha1Valid) "rawbody" "secret").valid =
      (verifySignatureSHA256 hmac256Stub
          ((sha256HeaderOf bothHeadersSha1Valid).getD "") "rawbody" "secret" ||
        verifySignatureSHA1 hmac1Stub
          ((sha1HeaderOf bothHeadersSha1Valid).getD "") "rawbody" "secret") :=
  C1_amended_signature_fallback hmac1Stub hmac256Stub bothHeadersSha1Valid "rawbody" "secret"
    (by decide) (by decide) (by decide) (by decide)

/-- Claim C2 counterexample: a GET verification request with mode subscribe and
the hard-coded known token is answered 200 text/plain with the challenge even
though the webhook_configs table is empty — acceptance does not require a
matching (let alone active) WebhookConfig row. -/
theorem C2_claim_counterexample :
    metaWebhookVerificationHandler knownTokenEvent (DbState.table []) =
      ⟨200, true, some "C123"⟩ ∧
    matchingConfigs [] "14abae006d729dbc83ca136af12bbbe1d9480eff" (some "T1") "facebook" = [] := by
  decide

/-- Claim C2 amended: a GET verification request is answered 200 (text/plain with
the challenge verbatim) exactly when mode is subscribe, a token is present, and
either the token is the hard-coded known token, or the database client is
unavailable and the token is longer than 10 characters or equals test_token, or
a webhook_configs row matches the token (filtered by user id and platform from
the URL when present, with is_active ignored); every other GET request receives
400, 401, or 500 (the latter on a database query error). -/
theorem C2_amended_verification_contract (event : VerificationEvent) (db : DbState)
    (hget : event.httpMethod = "GET") :
    ((metaWebhookVerificationHandler event db).statusCode = 200 ↔
      verificationAccepts event db = true) ∧
    ((metaWebhookVerificationHandler event db).statusCode = 200 →
      (metaWebhookVerificationHandler event db).body = eventChallenge event ∧
      (metaWebhookVerificationHandler event db).contentTypeTextPlain = true) ∧
    ((metaWebhookVerificationHandler event db).statusCode ≠ 200 →
      (metaWebhookVerificationHandler event db).statusCode = 400 ∨
      (metaWebhookVerificationHandler event db).statusCode = 401 ∨
      (metaWebhookVerificationHandler event db).statusCode = 500) := by
  simp only [metaWebhookVerificationHandler, verificationAccepts, hget]
  simp only [show (("GET" : String) == "OPTIONS") = false from rfl,
    show (("GET" : String) != "GET") = false from rfl, Bool.false_eq_true, if_false]
  by_cases hm : eventMode event = some "subscribe"
  · simp only [hm, show ((some "subscribe" : Option String) != some "subscribe") = false from rfl,
      show ((some "subscribe" : Option String) == some "subscribe") = true from rfl,
      Bool.false_eq_true, if_false, Bool.true_and]
    by_cases ht : jsTruthy (eventToken event) = true
    · simp only [ht, Bool.not_true, Bool.false_eq_true, if_false, Bool.true_and]
      by_cases hk : (eventToken event).getD "" ∈ knownTokens
      · simp [hk]
      · cases db with
        | unavailable =>
          by_cases hf : 10 < ((eventToken event).getD "").length ∨
              (eventToken event).getD "" = "test_token"
          · simp [hk, hf]
          · simp [hk, hf]
        | queryError => simp [hk]
        | table rows =>
          cases hmc : matchingConfigs rows ((eventToken event).getD "")
              (extractUserPlatform event.path).1 (extractUserPlatform event.path).2 with
          | nil => simp [hk, hmc]
          | cons a l => simp [hk, hmc]
    · simp [ht]
  · have hm1 : (eventMode event != some "subscribe") = true := by
      simp [bne]
      intro h
      exact absurd h hm
    have hm2 : (eventMode event == some "subscribe") = false := by
      simp
      intro h
      exact absurd h hm
    simp [hm1, hm2]

/-- Concrete instantiation of claim C2 (amended): the known-token request against
an empty table is accepted with the challenge echoed back. -/
theorem C2_amended_verification_contract_witness :
    (metaWebhookVerificationHandler knownTokenEvent (DbState.table [])).statusCode = 200 ∧
    (metaWebhookVerificationHandler knownTokenEvent (DbState.table [])).body =
      eventChallenge knownTokenEvent :=
  ⟨((C2_amended_verification_contract knownTokenEvent (DbState.table []) rfl).1).mpr (by decide),
   ((C2_amended_verification_contract knownTokenEvent (DbState.table []) rfl).2.1 (by decide)).1⟩

/-- Claim C9: an inbound webhook POST that passes signature validation, parses,
carries a valid path and object discriminator, and whose events are all enqueued
successfully is answered with HTTP 200 whatever the outcome of the subsequent
processing step — no downstream error produces a non-200 response to the
provider. -/
theorem C9_always_200_after_enqueue
    (hmac1 hmac256 : String → String → String) (appSecret : Option String)
    (event : HandlerEvent) (getResponse : HttpResponse) (pb : ParsedBody)
    (entries : List (List RawMessagingEvent)) (enqueueOutcomes : Nat → JsOutcome Unit)
    (drainOutcome : JsOutcome Nat) (queued : Nat)
    (hpost : event.httpMethod = "POST")
    (hsig : jsTruthy appSecret = true →
      (validateWebhook hmac1 hmac256 event.headers event.body (appSecret.getD "")).valid = true)
    (hpath1 : jsTruthy (extractWebhookPath event.path).fst = true)
    (hpath2 : (extractWebhookPath event.path).snd = some "facebook" ∨
      (extractWebhookPath event.path).snd = some "instagram")
    (hobj : pb.object = some "page" ∨ pb.object = some "instagram")
    (hent : pb.entries = some entries)
    (henq : runEnqueues enqueueOutcomes ((extractWebhookPath event.path).snd.getD "")
      entries.flatten 0 = JsOutcome.ok queued) :
    (metaWebhookHandler hmac1 hmac256 appSecret event getResponse (some pb) enqueueOutcomes
      drainOutcome).statusCode = 200 := by
  simp only [metaWebhookHandler, hpost]
  simp only [show (("POST" : String) == "OPTIONS") = false from rfl,
    show (("POST" : String) == "GET") = false from rfl,
    show (("POST" : String) != "POST") = false from rfl, Bool.false_eq_true, if_false]
  have hsigbr : (jsTruthy appSecret &&
      !(validateWebhook hmac1 hmac256 event.headers event.body (appSecret.getD "")).valid) =
        false := by
    cases hjs : jsTruthy appSecret
    · simp
    · simp [hsig hjs]
  have hup2t : jsTruthy (extractWebhookPath event.path).snd = true := by
    rcases hpath2 with h | h <;> simp [h, jsTruthy]
  have hpathbr : (!jsTruthy (extractWebhookPath event.path).fst ||
      !jsTruthy (extractWebhookPath event.path).snd) = false := by
    simp [hpath1, hup2t]
  have hplat : ((extractWebhookPath event.path).snd != some "facebook" &&
      (extractWebhookPath event.path).snd != some "instagram") = false := by
    rcases hpath2 with h | h <;> simp [h]
  have hobjbr : (pb.object != some "page" && pb.object != some "instagram") = false := by
    rcases hobj with h | h <;> simp [h]
  simp only [hsigbr, hpathbr, hplat, hobjbr, Bool.false_eq_true, if_false, hent, henq]
  cases drainOutcome <;> rfl

/-- Concrete instantiation of claim C9: one successfully enqueued Facebook
message followed by a throwing drain step is still answered 200. -/
theorem C9_always_200_after_enqueue_witness :
    (metaWebhookHandler hmac1Stub hmac256Stub (some "secret") postWebhookEvent
      ⟨418, false, none⟩ (some ⟨some "page", some [[fbTextEvent]]⟩) (fun _ => JsOutcome.ok ())
      (JsOutcome.threw "downstream failure")).statusCode = 200 :=
  C9_always_200_after_enqueue hmac1Stub hmac256Stub (some "secret") postWebhookEvent
    ⟨418, false, none⟩ ⟨some "page", some [[fbTextEvent]]⟩ [[fbTextEvent]]
    (fun _ => JsOutcome.ok ()) (JsOutcome.threw "downstream failure") 1
    rfl (fun _ => by decide) (by decide) (Or.inl (by decide)) (Or.inl rfl) rfl (by decide)

theorem strAppend_ne_empty_left (a b : String) (ha : a ≠ "") : a ++ b ≠ "" := by
  intro h
  have hl := congrArg String.length h
  rw [String.length_append] at hl
  have hz : ("" : String).length = 0 := rfl
  rw [hz] at hl
  have ha0 : a.length ≠ 0 := by
    intro h0
    apply ha
    cases a with
    | mk l =>
      cases l with
      | nil => rfl
      | cons c t =>
        have : (String.mk (c :: t)).length = t.length + 1 := by
          simp [String.length]
        omega
  omega

theorem jsOrStr_ne_empty (a b : Option String)
    (h : jsTruthy a = true ∨ jsTruthy b = true) : jsOrStr a b ≠ "" := by
  unfold jsOrStr
  by_cases ha : jsTruthy a = true
  · rw [if_pos ha]
    cases a with
    | none => simp [jsTruthy] at ha
    | some s => simpa [jsTruthy] using ha
  · rcases h with h | hb
    · exact absurd h ha
    · rw [if_neg ha]
      cases b with
      | none => simp [jsTruthy] at hb
      | some s => simpa [jsTruthy] using hb

theorem processAttachment_description_ne (a : MetaAttachment) (pa : ProcessedAttachment)
    (h : processAttachment a = some pa) : pa.description ≠ "" := by
  unfold processAttachment at h
  split at h
  · injection h with h2
    subst h2
    exact strAppend_ne_empty_left _ _ (strAppend_ne_empty_left _ _ (by decide))
  · injection h with h2
    subst h2
    show ("[Audio message]" : String) ≠ ""
    decide
  · injection h with h2
    subst h2
    show ("[Video message]" : String) ≠ ""
    decide
  · injection h with h2
    subst h2
    exact strAppend_ne_empty_left _ _ (strAppend_ne_empty_left _ _ (by decide))
  · split at h
    · cases h
    · injection h with h2
      subst h2
      exact strAppend_ne_empty_left _ _
        (strAppend_ne_empty_left _ _
          (strAppend_ne_empty_left _ _ (strAppend_ne_empty_left _ _ (by decide))))
  · injection h with h2
    subst h2
    exact strAppend_ne_empty_left _ _ (strAppend_ne_empty_left _ _ (by decide))
  · injection h with h2
    subst h2
    exact strAppend_ne_empty_left _ _ (strAppend_ne_empty_left _ _ (by decide))

theorem attachmentStep_text_of_ne (acc : ProcessedContent) (pa : ProcessedAttachment)
    (h : acc.text ≠ "") : (attachmentStep acc pa).text = acc.text := by
  unfold attachmentStep
  have hne : (({ acc with attachments := acc.attachments ++ [pa] } :
      ProcessedContent).text == "") = false := by
    simpa using h
  simp only [hne, Bool.false_and, Bool.false_eq_true, if_false]
  split <;> rfl

theorem attachmentStep_text_of_empty (acc : ProcessedContent) (pa : ProcessedAttachment)
    (h : acc.text = "") (hd : pa.description ≠ "") :
    (attachmentStep acc pa).text = pa.description := by
  unfold attachmentStep
  have h1 : (({ acc with attachments := acc.attachments ++ [pa] } :
      ProcessedContent).text == "") = true := by
    simpa using h
  have h2 : (pa.description != "") = true := by simpa using hd
  simp only [h1, h2, Bool.and_self, Bool.true_and, if_true]
  split <;> rfl

theorem processAttachmentsFold_text_stable :
    ∀ (atts : List MetaAttachment) (acc res : ProcessedContent), acc.text ≠ "" →
      processAttachmentsFold atts acc = some res → res.text = acc.text := by
  intro atts
  induction atts with
  | nil =>
    intro acc res _ heq
    unfold processAttachmentsFold at heq
    injection heq with h2
    rw [← h2]
  | cons a rest ih =>
    intro acc res h heq
    unfold processAttachmentsFold at heq
    cases hpa : processAttachment a with
    | none => rw [hpa] at heq; cases heq
    | some pa =>
      rw [hpa] at heq
      have hstep := attachmentStep_text_of_ne acc pa h
      have hres := ih (attachmentStep acc pa) res (by rw [hstep]; exact h) heq
      rw [hres, hstep]

theorem processAttachmentsFold_first_text (a : MetaAttachment) (rest : List MetaAttachment)
    (acc res : ProcessedContent) (pa : ProcessedAttachment) (h : acc.text = "")
    (hpa : processAttachment a = some pa)
    (heq : processAttachmentsFold (a :: rest) acc = some res) :
    res.text = pa.description := by
  unfold processAttachmentsFold at heq
  rw [hpa] at heq
  have hd := processAttachment_description_ne a pa hpa
  have hstep := attachmentStep_text_of_empty acc pa h hd
  have hres := processAttachmentsFold_text_stable rest (attachmentStep acc pa) res
    (by rw [hstep]; exact hd) heq
  rw [hres, hstep]

theorem fallbackTextStep_text_of_ne (platform : String) (pc : ProcessedContent)
    (h : pc.text ≠ "") : (fallbackTextStep platform pc).text = pc.text := by
  unfold fallbackTextStep
  have hne : (pc.text == "") = false := by simpa using h
  simp only [hne, Bool.false_eq_true, if_false]

theorem fallbackTextStep_type (platform : String) (pc : ProcessedContent) :
    (fallbackTextStep platform pc).type = pc.type := by
  unfold fallbackTextStep
  split <;> rfl

theorem textStep_text_of_false (m : MetaMessage) (h : jsTruthy m.text = false) :
    (textStep m).text = "" := by
  simp [textStep, h]

/-- Claim C8: `processMetaMessage` normalization — with no (truthy) text but
attachments present, the text becomes the first attachment's description; a
postback sets the text to its payload (falling back to its title) and the type
to postback; a quick-reply tap (with no postback alongside) sets the text to the
payload and the type to quick_reply; and when nothing is recoverable the text is
the bracketed unsupported-platform marker. -/
theorem C8_meta_message_normalization (m : MetaMessage) (platform : String) :
    (∀ pc pa a rest, jsTruthy m.text = false → m.attachments = a :: rest →
      m.quick_reply = none → m.postback = none → processAttachment a = some pa →
      processMetaMessage m platform = some pc → pc.text = pa.description) ∧
    (∀ pc pb, m.postback = some pb →
      (jsTruthy pb.payload = true ∨ jsTruthy pb.title = true) →
      processMetaMessage m platform = some pc →
      pc.text = jsOrStr pb.payload pb.title ∧ pc.type = "postback") ∧
    (∀ pc qr, m.quick_reply = some qr → m.postback = none → qr.payload ≠ "" →
      processMetaMessage m platform = some pc →
      pc.text = qr.payload ∧ pc.type = "quick_reply") ∧
    (∀ pc, jsTruthy m.text = false → m.attachments = [] → m.quick_reply = none →
      m.postback = none → processMetaMessage m platform = some pc →
      pc.text = "[Unsupported " ++ platform ++ " message type]") := by
  refine ⟨?_, ?_, ?_, ?_⟩
  · intro pc pa a rest htext hatts hqr hpb hpa hres
    unfold processMetaMessage at hres
    cases hfold : processAttachmentsFold m.attachments (textStep m) with
    | none => rw [hfold] at hres; cases hres
    | some pc2 =>
      rw [hfold] at hres
      injection hres with h2
      subst h2
      show (fallbackTextStep platform
        (postbackStep (quickReplyStep pc2 m.quick_reply) m.postback)).text = pa.description
      rw [hqr, hpb]
      show (fallbackTextStep platform pc2).text = pa.description
      have htxt0 := textStep_text_of_false m htext
      have hpc2 : pc2.text = pa.description := by
        apply processAttachmentsFold_first_text a rest (textStep m) pc2 pa htxt0 hpa
        rw [← hatts]
        exact hfold
      have hne : pc2.text ≠ "" := by
        rw [hpc2]
        exact processAttachment_description_ne a pa hpa
      rw [fallbackTextStep_text_of_ne platform pc2 hne, hpc2]
  · intro pc pb hpb hor hres
    unfold processMetaMessage at hres
    cases hfold : processAttachmentsFold m.attachments (textStep m) with
    | none => rw [hfold] at hres; cases hres
    | some pc2 =>
      rw [hfold] at hres
      injection hres with h2
      subst h2
      have hne : (postbackStep (quickReplyStep pc2 m.quick_reply) (some pb)).text ≠ "" := by
        show jsOrStr pb.payload pb.title ≠ ""
        exact jsOrStr_ne_empty _ _ hor
      constructor
      · show (fallbackTextStep platform
          (postbackStep (quickReplyStep pc2 m.quick_reply) m.postback)).text =
            jsOrStr pb.payload pb.title
        rw [hpb, fallbackTextStep_text_of_ne _ _ hne]
        rfl
      · show (fallbackTextStep platform
          (postbackStep (quickReplyStep pc2 m.quick_reply) m.postback)).type = "postback"
        rw [hpb, fallbackTextStep_type]
        rfl
  · intro pc qr hqr hpb hq hres
    unfold processMetaMessage at hres
    cases hfold : processAttachmentsFold m.attachments (textStep m) with
    | none => rw [hfold] at hres; cases hres
    | some pc2 =>
      rw [hfold] at hres
      injection hres with h2
      subst h2
      have hne : (quickReplyStep pc2 (some qr)).text ≠ "" := by
        show qr.payload ≠ ""
        exact hq
      constructor
      · show (fallbackTextStep platform
          (postbackStep (quickReplyStep pc2 m.quick_reply) m.postback)).text = qr.payload
        rw [hpb, hqr]
        show (fallbackTextStep platform (quickReplyStep pc2 (some qr))).text = qr.payload
        rw [fallbackTextStep_text_of_ne _ _ hne]
        rfl
      · show (fallbackTextStep platform
          (postbackStep (quickReplyStep pc2 m.quick_reply) m.postback)).type = "quick_reply"
        rw [hpb, hqr]
        show (fallbackTextStep platform (quickReplyStep pc2 (some qr))).type = "quick_reply"
        rw [fallbackTextStep_type]
        rfl
  · intro pc htext hatts hqr hpb hres
    unfold processMetaMessage at hres
    rw [hatts] at hres
    simp only [processAttachmentsFold] at hres
    injection hres with h2
    subst h2
    show (fallbackTextStep platform
      (postbackStep (quickReplyStep (textStep m) m.quick_reply) m.postback)).text = _
    rw [hqr, hpb]
    show (fallbackTextStep platform (textStep m)).text = _
    have htxt0 := textStep_text_of_false m htext
    simp [fallbackTextStep, htxt0]

/-- Concrete instantiations of claim C8, one per clause. -/
theorem C8_meta_message_normalization_witness :
    (pcOf imageOnlyMessage "facebook").text = "[Image: http://img.example/x.png]" ∧
    ((pcOf postbackMessage "facebook").text = "PB_PAYLOAD" ∧
      (pcOf postbackMessage "facebook").type = "postback") ∧
    ((pcOf quickReplyMessage "facebook").text = "QR_PAYLOAD" ∧
      (pcOf quickReplyMessage "facebook").type = "quick_reply") ∧
    (pcOf bareMessage "instagram").text = "[Unsupported instagram message type]" := by
  refine ⟨?_, ?_, ?_, ?_⟩
  · exact (C8_meta_message_normalization imageOnlyMessage "facebook").1
      (pcOf imageOnlyMessage "facebook")
      ⟨"image", some "http://img.example/x.png", none, "[Image: http://img.example/x.png]"⟩
      imageAttachment [] rfl rfl rfl rfl (by decide) (by decide)
  · exact (C8_meta_message_normalization postbackMessage "facebook").2.1
      (pcOf postbackMessage "facebook") ⟨some "PB_PAYLOAD", some "PB Title"⟩ rfl
      (Or.inl (by decide)) (by decide)
  · exact (C8_meta_message_normalization quickReplyMessage "facebook").2.2.1
      (pcOf quickReplyMessage "facebook") ⟨"QR_PAYLOAD"⟩ rfl rfl (by decide) (by decide)
  · exact (C8_meta_message_normalization bareMessage "instagram").2.2.2
      (pcOf bareMessage "instagram") rfl rfl rfl rfl (by decide)

/-- Claim C10: `formatVoiceflowResponse` always yields a non-empty text — an
absent or non-array argument gets the apology message, an empty collapse with an
image attachment gets "Here you go!", and an empty collapse without one gets the
apology message. -/
theorem C10_nonempty_reply_text (v : Option (List VFItem)) :
    (formatVoiceflowResponse v).text ≠ "" ∧
    (v = none → (formatVoiceflowResponse v).text = apologyText) ∧
    (∀ items, v = some items → (collapsedResponse items).text = "" →
      ((collapsedResponse items).attachment.isSome = true →
        (formatVoiceflowResponse v).text = "Here you go!") ∧
      ((collapsedResponse items).attachment = none →
        (formatVoiceflowResponse v).text = apologyText)) := by
  refine ⟨?_, ?_, ?_⟩
  · cases v with
    | none =>
      show apologyText ≠ ""
      decide
    | some items =>
      simp only [formatVoiceflowResponse]
      split
      · split
        · next h2 => simp at h2
        · show ("Here you go!" : String) ≠ ""
          decide
      · split
        · show apologyText ≠ ""
          decide
        · next h2 => simpa using h2
  · intro h
    subst h
    rfl
  · intro items hv hft
    subst hv
    constructor
    · intro hatt
      simp only [formatVoiceflowResponse, collapsedResponse] at hft hatt ⊢
      simp [hft, hatt]
    · intro hatt
      simp only [formatVoiceflowResponse, collapsedResponse] at hft hatt ⊢
      simp [hft, hatt]

/-- Concrete instantiations of claim C10: a null response gets the apology text,
and an image-only response gets the "Here you go!" fallback. -/
theorem C10_nonempty_reply_text_witness :
    (formatVoiceflowResponse none).text = apologyText ∧
    (formatVoiceflowResponse (some [VFItem.visual (some "http://img.example/pic.png")])).text =
      "Here you go!" :=
  ⟨(C10_nonempty_reply_text none).2.1 rfl,
   ((C10_nonempty_reply_text (some [VFItem.visual (some "http://img.example/pic.png")])).2.2
      [VFItem.visual (some "http://img.example/pic.png")] rfl (by decide)).1 (by decide)⟩

